import Mathlib

/-!
Verification of the scoring engine in `credit_score_generator.py`.

The embedding models the three core stages of the script over exact
rationals:

* `calculate_wallet_features` — per-wallet feature extraction from the
  wallet's event rows (source lines 46–73);
* `base_score` — the heuristic baseline score computed in `main`
  (source lines 113–123) from the `CONFIG['risk_factors']` table;
* `generate_scores` / `credit_scores` — the calibration pipeline
  (source lines 75–96 and 126–127): sanitise the feature matrix, scale,
  fit/predict (the fitted scaler and LightGBM model are opaque external
  functions, so they are parameters of the embedding), clip to the score
  range and convert to integers.

Floating-point standard deviations are embedded by their squares
(`tx_frequency_std_sq`, `value_std_sq`): for every comparison the source
makes (`std < 60`, `std == 0`, NaN-ness) the square is an exact faithful
encoding, since `std < 60 ↔ std² < 3600` and `std = 0 ↔ std² = 0` for the
non-negative `std`, and the square of a sample statistic is NaN exactly
when the statistic is.  Non-finite floats (±inf, NaN) are represented by
the `EVal` type.
-/

namespace CreditScoring

/-- One normalized event row as produced by `load_data` (source lines 27–44):
wallet id (`user`), epoch timestamp in seconds, lower-cased action label,
lower-cased asset symbol, and numeric value (unparseable amounts → 0). -/
structure Event where
  user : String
  timestamp : Int
  action : String
  asset : String
  value : ℚ
  deriving DecidableEq, Repr

/-- An extended numeric value: a finite rational, `+inf`, `-inf`, or NaN.
Used for feature entries that the floating-point source can make
non-finite. -/
inductive EVal where
  | finite (q : ℚ)
  | posInf
  | negInf
  | nan
  deriving DecidableEq, Repr

/-- `true` exactly on the `finite` constructor. -/
def EVal.isFinite : EVal → Bool
  | .finite _ => true
  | _ => false

/-- Mean of a list of rationals (`np.mean` / pandas `.mean()`); division by
zero for the empty list yields `0` in `ℚ`, a case the source never hits
because wallet partitions are non-empty. -/
def listMean (xs : List ℚ) : ℚ := xs.sum / xs.length

/-- Population variance, i.e. the square of `np.std` (ddof = 0). -/
def popVar (xs : List ℚ) : ℚ :=
  ((xs.map fun x => (x - listMean xs) ^ 2).sum) / xs.length

/-- Square of the pandas sample standard deviation `.std()` (ddof = 1):
finite for two or more entries, NaN otherwise (in particular NaN for a
single entry, where the `n - 1` divisor is zero). -/
def sampleStd_sq (xs : List ℚ) : EVal :=
  if 2 ≤ xs.length then
    .finite (((xs.map fun x => (x - listMean xs) ^ 2).sum) / ((xs.length : ℚ) - 1))
  else .nan

/-- Adjacent differences of a list (`np.diff`). -/
def adjDiffs : List ℚ → List ℚ
  | [] => []
  | [_] => []
  | a :: b :: rest => (b - a) :: adjDiffs (b :: rest)

/-- The `hour` component (`.dt.hour`) of an epoch-seconds timestamp:
floor-divide by 3600 and reduce mod 24 (Python floor semantics). -/
def hourOf (ts : Int) : Int := (ts.ediv 3600).emod 24

/-- `value_counts(normalize=True).to_dict().get(a, 0)` on the wallet's
action column: the fraction of the wallet's events whose action equals
`a` (0 when the action does not occur, matching the `.get` default). -/
def actionRatio (a : String) (txs : List Event) : ℚ :=
  ((txs.countP fun t => t.action == a : ℕ) : ℚ) / txs.length

/-- `np.diff(np.sort(timestamps)) if len(timestamps) > 1 else np.array([0])`
(source line 50): gaps between consecutive sorted timestamps, `[0]` for a
single event. -/
def timeDiffs (txs : List Event) : List ℚ :=
  let timestamps : List ℚ := txs.map fun t => (t.timestamp : ℚ)
  if 1 < timestamps.length then
    adjDiffs (List.insertionSort (· ≤ ·) timestamps)
  else [0]

/-- The per-wallet feature vector (the dict built on source lines 56–72),
with both standard deviations carried as their squares. -/
structure WalletFeatures where
  tx_count : ℕ
  unique_assets : ℕ
  days_active : ℚ
  tx_frequency_std_sq : ℚ
  deposit_ratio : ℚ
  borrow_ratio : ℚ
  repay_ratio : ℚ
  redeem_ratio : ℚ
  liquidation_count : ℚ
  avg_tx_value : ℚ
  value_std_sq : EVal
  total_value : ℚ
  night_tx_ratio : ℚ
  workhour_tx_ratio : ℚ
  bot_likelihood : ℕ
  deriving DecidableEq, Repr

/-- `calculate_wallet_features` (source lines 46–73) on the list of one
wallet's event rows.  Field-by-field translation:
* `days_active`: `(timestamps.max() - timestamps.min()) / 86400` when more
  than one event, else `0`;
* `tx_frequency_std_sq`: square of `np.std(time_diffs)` when more than one
  gap, else `0`;
* the five ratio/count fields come from the normalized `value_counts`
  lookup — note `liquidation_count` is the lookup of `'liquidationcall'`
  in the NORMALIZED counts, hence a fraction in `[0,1]`, not an event count;
* `value_std_sq`: square of the pandas sample std of the values — NaN for
  a single event;
* `night_tx_ratio`: fraction of events with hour `< 6` or `> 22`;
  `workhour_tx_ratio`: fraction with `9 ≤ hour ≤ 17`;
* `bot_likelihood`: 1 iff the mean gap is under 60s and there are more
  than 10 gaps. -/
def calculate_wallet_features (wallet_txs : List Event) : WalletFeatures :=
  let timestamps : List ℚ := wallet_txs.map fun t => (t.timestamp : ℚ)
  let time_diffs := timeDiffs wallet_txs
  { tx_count := wallet_txs.length
    unique_assets := (wallet_txs.map fun t => t.asset).dedup.length
    days_active :=
      if 1 < timestamps.length then
        ((timestamps.max?.getD 0) - (timestamps.min?.getD 0)) / 86400
      else 0
    tx_frequency_std_sq := if 1 < time_diffs.length then popVar time_diffs else 0
    deposit_ratio := actionRatio "deposit" wallet_txs
    borrow_ratio := actionRatio "borrow" wallet_txs
    repay_ratio := actionRatio "repay" wallet_txs
    redeem_ratio := actionRatio "redeemunderlying" wallet_txs
    liquidation_count := actionRatio "liquidationcall" wallet_txs
    avg_tx_value := listMean (wallet_txs.map fun t => t.value)
    value_std_sq := sampleStd_sq (wallet_txs.map fun t => t.value)
    total_value := (wallet_txs.map fun t => t.value).sum
    night_tx_ratio :=
      ((wallet_txs.countP fun t => hourOf t.timestamp < 6 || 22 < hourOf t.timestamp : ℕ) : ℚ)
        / wallet_txs.length
    workhour_tx_ratio :=
      ((wallet_txs.countP fun t => 9 ≤ hourOf t.timestamp && hourOf t.timestamp ≤ 17 : ℕ) : ℚ)
        / wallet_txs.length
    bot_likelihood :=
      if listMean time_diffs < 60 ∧ 10 < time_diffs.length then 1 else 0 }

/-! The `CONFIG['risk_factors']` table (source lines 14–25). -/

/-- `CONFIG['risk_factors']['liquidation_penalty']`. -/
def liquidation_penalty : ℚ := -200

/-- `CONFIG['risk_factors']['high_frequency_penalty']`. -/
def high_frequency_penalty : ℚ := -150

/-- `CONFIG['risk_factors']['repayment_reward']`. -/
def repayment_reward : ℚ := 300

/-- `CONFIG['risk_factors']['longevity_reward']` (per day). -/
def longevity_reward : ℚ := 2

/-- `CONFIG['risk_factors']['deposit_bonus']`. -/
def deposit_bonus : ℚ := 50

/-- `CONFIG['risk_factors']['borrow_penalty']`. -/
def borrow_penalty : ℚ := -30

/-- `CONFIG['risk_factors']['bot_penalty']`. -/
def bot_penalty : ℚ := -100

/-- `np.clip(x, lo, hi)` / pandas `.clip(lo, hi)`: values below `lo`
become `lo`, values above `hi` become `hi`, everything else is kept
(equal to `min (max x lo) hi` for `lo ≤ hi`). -/
def np_clip (lo hi x : ℚ) : ℚ := if x < lo then lo else if hi < x then hi else x

/-- The indicator `(tx_frequency_std < 60).astype(int)` from source line
121, on the squared embedding: `std < 60 ↔ std² < 3600` since `std ≥ 0`. -/
def hfIndicator (f : WalletFeatures) : ℚ :=
  if f.tx_frequency_std_sq < 3600 then 1 else 0

/-- The heuristic baseline `wallet_features['base_score']` computed in
`main` (source lines 113–123): weighted rule sum clipped to `[300, 700]`. -/
def base_score (f : WalletFeatures) : ℚ :=
  np_clip 300 700 (500
    + repayment_reward * f.repay_ratio
    + longevity_reward * f.days_active
    + deposit_bonus * f.deposit_ratio
    + borrow_penalty * f.borrow_ratio
    + liquidation_penalty * f.liquidation_count
    + high_frequency_penalty * hfIndicator f
    + bot_penalty * (f.bot_likelihood : ℚ))

/-! The Score Calibrator: `generate_scores` (source lines 75–96) and the
integer conversion `scores.astype(int)` in `main` (source line 127).
The fitted `RobustScaler` (`fit_transform`) and the fitted `LGBMRegressor`
prediction (`model.predict` after `model.fit`) are opaque external-library
computations; the embedding takes them as function parameters `scale` and
`predict` (LightGBM predictions are finite reals, hence type `ℚ`). -/

/-- The row a `WalletFeatures` record contributes to the feature matrix
`X = wallet_features[feature_cols]` (source lines 77–79): every feature
column in dict-insertion order, excluding `user`, `base_score` and
`credit_score`.  All entries are finite except possibly `value_std_sq`. -/
def featureRow (f : WalletFeatures) : List EVal :=
  [.finite (f.tx_count : ℚ), .finite (f.unique_assets : ℚ), .finite f.days_active,
   .finite f.tx_frequency_std_sq, .finite f.deposit_ratio, .finite f.borrow_ratio,
   .finite f.repay_ratio, .finite f.redeem_ratio, .finite f.liquidation_count,
   .finite f.avg_tx_value, f.value_std_sq, .finite f.total_value,
   .finite f.night_tx_ratio, .finite f.workhour_tx_ratio, .finite (f.bot_likelihood : ℚ)]

/-- `X.replace([np.inf, -np.inf], np.nan).fillna(0)` (source line 80) on a
single entry: `+inf`, `-inf` and NaN all become `0`; finite entries are
unchanged. -/
def sanitize : EVal → ℚ
  | .finite q => q
  | .posInf => 0
  | .negInf => 0
  | .nan => 0

/-- The matrix handed to `scaler.fit_transform` (source line 83): the raw
feature matrix with every entry sanitised. -/
def scalerInput (rows : List WalletFeatures) : List (List ℚ) :=
  (rows.map featureRow).map fun r => r.map sanitize

/-- The error taxonomy named by the design (`DataError`, `ModelFitError`).
No constructor is ever produced by the source: `generate_scores` contains
no validation or raise statement. -/
inductive ScoreError where
  | dataError
  | modelFitError
  deriving DecidableEq, Repr

/-- `generate_scores` (source lines 75–96): sanitise, scale, predict, and
clip every prediction to `CONFIG['score_range'] = (0, 1000)` (line 94).
`scale` stands for the fitted scaler's `fit_transform`, `predict` for the
fitted model's `predict` on the scaled features. -/
def generate_scores (scale : List (List ℚ) → List (List ℚ))
    (predict : List (List ℚ) → List ℚ) (rows : List WalletFeatures) : List ℚ :=
  (predict (scale (scalerInput rows))).map fun s => np_clip 0 1000 s

/-- `generate_scores` with the design's error channel made explicit: the
source performs no batch-size check and contains no raise statement, so
every run returns `ok`. -/
def generate_scoresE (scale : List (List ℚ) → List (List ℚ))
    (predict : List (List ℚ) → List ℚ) (rows : List WalletFeatures) :
    Except ScoreError (List ℚ) :=
  Except.ok (generate_scores scale predict rows)

/-- Numpy's `astype(int)` on a finite float: truncation toward zero. -/
def truncToZero (q : ℚ) : ℤ := if 0 ≤ q then ⌊q⌋ else ⌈q⌉

/-- The published scores `wallet_features['credit_score'] =
scores.astype(int)` (source line 127). -/
def credit_scores (scale : List (List ℚ) → List (List ℚ))
    (predict : List (List ℚ) → List ℚ) (rows : List WalletFeatures) : List ℤ :=
  (generate_scores scale predict rows).map truncToZero

/-- Modelled from the spec (refinement reference, NOT from the source):
`score = clip(round(predict(scaled_features)), 0, 1000)` with rounding to
the nearest integer, as §4.3 step 4 words it.  Compared against the
source-derived `credit_scores` pipeline. -/
def spec_published (p : ℚ) : ℤ := max 0 (min (round p) 1000)

/-! Wallet grouping: `df.groupby('user')` in `main` (source lines 106–109)
hands `calculate_wallet_features` exactly the rows whose `user` column is
the given wallet, in table order. -/

/-- The event rows of one wallet, as `groupby` partitions them. -/
def walletGroup (w : String) (events : List Event) : List Event :=
  events.filter fun t => t.user == w

/-- The feature vector `main` computes for wallet `w` from the whole
event table. -/
def walletFeaturesOf (w : String) (events : List Event) : WalletFeatures :=
  calculate_wallet_features (walletGroup w events)

/-- The baseline score `main` computes for wallet `w` from the whole
event table. -/
def base_scoreOf (w : String) (events : List Event) : ℚ :=
  base_score (walletFeaturesOf w events)

/-! Concrete demonstration inputs used by witnesses and counterexamples. -/

/-- A wallet with exactly one liquidation event and no other activity. -/
def soloLiqTxs : List Event := [⟨"wY", 0, "liquidationcall", "usdc", 10⟩]

/-- A wallet with one liquidation event and one deposit (2 events total). -/
def liqDepTxs : List Event :=
  [⟨"wA", 0, "liquidationcall", "usdc", 10⟩, ⟨"wA", 100, "deposit", "usdc", 5⟩]

/-- A wallet with two deposits one second apart. -/
def twoDepTxs : List Event :=
  [⟨"wB", 0, "deposit", "usdc", 10⟩, ⟨"wB", 1, "deposit", "usdc", 10⟩]

/-- A wallet with three repayments spaced exactly one day (86400 s) apart:
perfectly even spacing with day-long gaps. -/
def evenSpacedTxs : List Event :=
  [⟨"wC", 0, "repay", "dai", 1⟩, ⟨"wC", 86400, "repay", "dai", 1⟩,
   ⟨"wC", 172800, "repay", "dai", 1⟩]

/-- Event table: wallet `wT` plus one other wallet. -/
def nihEvents1 : List Event :=
  [⟨"wT", 0, "repay", "dai", 5⟩, ⟨"other", 50, "borrow", "usdc", 7⟩]

/-- Event table: wallet `wT` unchanged, other wallets' events changed,
added and removed relative to `nihEvents1`. -/
def nihEvents2 : List Event :=
  [⟨"wT", 0, "repay", "dai", 5⟩, ⟨"other", 999, "liquidationcall", "eth", 3⟩,
   ⟨"other2", 1, "deposit", "dai", 2⟩]

/-! Helper lemmas. -/

/-- Sum of a constant list. -/
theorem list_sum_const (xs : List ℚ) (g : ℚ) (h : ∀ x ∈ xs, x = g) :
    xs.sum = xs.length * g := by
  induction xs with
  | nil => simp
  | cons a t ih =>
      have ha : a = g := h a (by simp)
      have ht : ∀ x ∈ t, x = g := fun x hx => h x (by simp [hx])
      simp only [List.sum_cons, List.length_cons, ih ht, ha]
      push_cast
      ring

/-- The mean of a non-empty constant list is that constant. -/
theorem listMean_const (xs : List ℚ) (g : ℚ) (hne : xs ≠ []) (h : ∀ x ∈ xs, x = g) :
    listMean xs = g := by
  have hlen : (xs.length : ℚ) ≠ 0 := by
    have h0 : xs.length ≠ 0 := fun hl => hne (List.length_eq_zero.mp hl)
    exact_mod_cast h0
  rw [listMean, list_sum_const xs g h, mul_comm, mul_div_assoc, div_self hlen, mul_one]

/-- The population variance of a constant list is zero. -/
theorem popVar_eq_zero_of_const (xs : List ℚ) (g : ℚ) (hne : xs ≠ []) (h : ∀ x ∈ xs, x = g) :
    popVar xs = 0 := by
  rw [popVar]
  have hz : (xs.map fun x => (x - listMean xs) ^ 2).sum = 0 := by
    refine List.sum_eq_zero fun y hy => ?_
    obtain ⟨x, hx, rfl⟩ := List.mem_map.mp hy
    rw [h x hx, listMean_const xs g hne h, sub_self]
    ring
  rw [hz, zero_div]

/-- Clipping lands inside the clip interval. -/
theorem np_clip_mem (lo hi x : ℚ) (h : lo ≤ hi) :
    lo ≤ np_clip lo hi x ∧ np_clip lo hi x ≤ hi := by
  unfold np_clip
  split_ifs with h1 h2
  · exact ⟨le_refl lo, h⟩
  · exact ⟨h, le_refl hi⟩
  · exact ⟨le_of_not_lt h1, le_of_not_lt h2⟩

/-! Claim theorems. -/

/-- C6 (amended): for every feature vector the heuristic `base_score` lies
in the closed interval `[300, 700]` (the clip in `main` line 123), but it
is a rational value that need not be an integer. -/
theorem base_score_within_bounds (f : WalletFeatures) :
    300 ≤ base_score f ∧ base_score f ≤ 700 :=
  np_clip_mem 300 700 _ (by norm_num)

/-- C6 counterexample: the wallet with two deposits one second apart has
`base_score = 400 + 1/43200 = 17280001/43200`, which equals no integer,
refuting "base_score is an integer value". -/
theorem base_score_not_integral_cex :
    base_score (calculate_wallet_features twoDepTxs) = 17280001 / 43200 ∧
    ¬ ∃ n : ℤ, base_score (calculate_wallet_features twoDepTxs) = (n : ℚ) := by
  have hval : base_score (calculate_wallet_features twoDepTxs) = 17280001 / 43200 := by
    simp [base_score, calculate_wallet_features, actionRatio, timeDiffs, hfIndicator,
      listMean, popVar, twoDepTxs, List.insertionSort, List.orderedInsert, adjDiffs,
      List.countP_cons, List.countP_nil, repayment_reward, longevity_reward, deposit_bonus,
      borrow_penalty, liquidation_penalty, high_frequency_penalty, bot_penalty]
    norm_num [np_clip]
  refine ⟨hval, ?_⟩
  rintro ⟨n, hn⟩
  rw [hval, div_eq_iff (by norm_num : (43200 : ℚ) ≠ 0)] at hn
  have hint : (17280001 : ℤ) = n * 43200 := by exact_mod_cast hn
  omega

/-- C8: a wallet whose only event is a liquidation (any wallet id, asset,
timestamp and value) gets `base_score = 300`; moreover the spec's stated
expression `clip(500 + liquidation_penalty·1, 300, 700)` also equals 300. -/
theorem solo_liquidation_scores_300 (u a : String) (ts : Int) (v : ℚ) :
    base_score (calculate_wallet_features [⟨u, ts, "liquidationcall", a, v⟩]) = 300 ∧
    np_clip 300 700 (500 + liquidation_penalty * 1) = 300 := by
  constructor
  · simp [base_score, calculate_wallet_features, actionRatio, timeDiffs, hfIndicator,
      listMean, popVar, List.countP_cons, List.countP_nil, repayment_reward,
      longevity_reward, deposit_bonus, borrow_penalty, liquidation_penalty,
      high_frequency_penalty, bot_penalty]
    norm_num [np_clip]
  · norm_num [np_clip, liquidation_penalty]

/-- C4 (amended): a wallet with exactly one event has `days_active = 0`,
`tx_frequency_std = 0` and `bot_likelihood = 0`, but its `value_std` is
NaN (the pandas sample std of a single value), not 0; the NaN is replaced
by 0 only later, in the calibrator's fill step. -/
theorem single_event_degenerate_features (e : Event) :
    (calculate_wallet_features [e]).days_active = 0 ∧
    (calculate_wallet_features [e]).tx_frequency_std_sq = 0 ∧
    (calculate_wallet_features [e]).bot_likelihood = 0 ∧
    (calculate_wallet_features [e]).value_std_sq = EVal.nan := by
  refine ⟨rfl, rfl, ?_, rfl⟩
  show (if listMean (timeDiffs [e]) < 60 ∧ 10 < (timeDiffs [e]).length then 1 else 0) = 0
  norm_num [timeDiffs, listMean]

/-- C4 counterexample: for the concrete single-event wallet `soloLiqTxs`
the extracted `value_std` is NaN, not the claimed 0. -/
theorem single_event_value_std_nan_cex :
    (calculate_wallet_features soloLiqTxs).value_std_sq = EVal.nan ∧
    (calculate_wallet_features soloLiqTxs).value_std_sq ≠ EVal.finite 0 := by
  constructor
  · decide
  · decide

/-- C1: for every scaler, every fitted model and every feature batch, each
published credit score is an integer in the closed range `[0, 1000]`: the
prediction is clipped to `CONFIG['score_range']` before `astype(int)`, so
even out-of-range predictions land on the bounds. -/
theorem credit_score_int_in_range (scale : List (List ℚ) → List (List ℚ))
    (predict : List (List ℚ) → List ℚ) (rows : List WalletFeatures)
    (s : ℤ) (hs : s ∈ credit_scores scale predict rows) :
    0 ≤ s ∧ s ≤ 1000 := by
  unfold credit_scores generate_scores at hs
  rw [List.mem_map] at hs
  obtain ⟨q, hq, rfl⟩ := hs
  rw [List.mem_map] at hq
  obtain ⟨p, hp, rfl⟩ := hq
  obtain ⟨h0, h1⟩ := np_clip_mem 0 1000 p (by norm_num)
  rw [truncToZero, if_pos h0]
  refine ⟨Int.floor_nonneg.mpr h0, ?_⟩
  have h2 : (⌊np_clip 0 1000 p⌋ : ℚ) ≤ 1000 := le_trans (Int.floor_le _) h1
  exact_mod_cast h2

/-- C1 witness: a degenerate prediction of 1502.5 on the one-liquidation
wallet is published as 1000, which satisfies the bounds. -/
theorem credit_score_int_in_range_witness :
    ((1000 : ℤ) ∈ credit_scores id (fun _ => [3005 / 2])
        [calculate_wallet_features soloLiqTxs]) ∧
    (0 ≤ (1000 : ℤ) ∧ (1000 : ℤ) ≤ 1000) := by
  have hmem : (1000 : ℤ) ∈ credit_scores id (fun _ => [3005 / 2])
      [calculate_wallet_features soloLiqTxs] := by
    have hev : credit_scores id (fun _ => [3005 / 2])
        [calculate_wallet_features soloLiqTxs] = [1000] := by
      simp [credit_scores, generate_scores, truncToZero]
      norm_num [np_clip]
    rw [hev]
    exact List.mem_singleton.mpr rfl
  exact ⟨hmem, credit_score_int_in_range _ _ _ 1000 hmem⟩

/-- C2 counterexample: on a batch of exactly 1 wallet the calibrator does
NOT fail with `DataError` — it returns `ok` and a score record is
produced (the source has no batch-size validation and no raise
statement). -/
theorem singleton_batch_scored_cex :
    generate_scoresE id (fun _ => [400]) [calculate_wallet_features soloLiqTxs]
        = Except.ok [400] ∧
    generate_scoresE id (fun _ => [400]) [calculate_wallet_features soloLiqTxs]
        ≠ Except.error ScoreError.dataError ∧
    credit_scores id (fun _ => [400]) [calculate_wallet_features soloLiqTxs]
        = [400] := by
  have hok : generate_scores id (fun _ => [400])
      [calculate_wallet_features soloLiqTxs] = [400] := by
    simp [generate_scores]
    norm_num [np_clip]
  refine ⟨?_, ?_, ?_⟩
  · rw [generate_scoresE, hok]
  · simp [generate_scoresE]
  · rw [credit_scores, hok]
    simp [truncToZero]

/-- C2 (amended): the Score Calibrator never fails — for every scaler,
predictor, batch (of any size, including a single wallet) and error kind,
it returns `ok` with one score per prediction; no `DataError` exists in
the code. -/
theorem calibrator_never_errors (scale : List (List ℚ) → List (List ℚ))
    (predict : List (List ℚ) → List ℚ) (rows : List WalletFeatures)
    (e : ScoreError) :
    generate_scoresE scale predict rows ≠ Except.error e ∧
    (credit_scores scale predict rows).length
      = (predict (scale (scalerInput rows))).length := by
  refine ⟨by simp [generate_scoresE], ?_⟩
  simp [credit_scores, generate_scores]

/-- C3 counterexample: the wallet `liqDepTxs` has exactly k = 1
liquidation event among n = 2 events; the claim says the liquidation term
is `liquidation_penalty · k = -200`, but the code's `liquidation_count`
is the normalized fraction 1/2, making the term -100. -/
theorem liquidation_term_ratio_cex :
    (liqDepTxs.countP fun t => t.action == "liquidationcall") = 1 ∧
    liqDepTxs.length = 2 ∧
    (calculate_wallet_features liqDepTxs).liquidation_count = 1 / 2 ∧
    liquidation_penalty * (calculate_wallet_features liqDepTxs).liquidation_count
      = -100 ∧
    liquidation_penalty * (1 : ℚ) = -200 := by
  have hfrac : (calculate_wallet_features liqDepTxs).liquidation_count = 1 / 2 := by
    simp [calculate_wallet_features, actionRatio, liqDepTxs,
      List.countP_cons, List.countP_nil]
  refine ⟨by decide, by decide, hfrac, ?_, by norm_num [liquidation_penalty]⟩
  rw [hfrac]
  norm_num [liquidation_penalty]

/-- C3 (amended): the `liquidation_count` feature entering the base score
is the FRACTION of the wallet's events that are liquidation calls (the
normalized `value_counts` lookup), a value in `[0, 1]`: a wallet with k
liquidation events among n events contributes
`liquidation_penalty · (k / n)`, not `liquidation_penalty · k`. -/
theorem liquidation_count_is_event_fraction (txs : List Event) (h : txs ≠ []) :
    (calculate_wallet_features txs).liquidation_count
      = ((txs.countP fun t => t.action == "liquidationcall" : ℕ) : ℚ) / txs.length ∧
    0 ≤ (calculate_wallet_features txs).liquidation_count ∧
    (calculate_wallet_features txs).liquidation_count ≤ 1 := by
  have heq : (calculate_wallet_features txs).liquidation_count
      = ((txs.countP fun t => t.action == "liquidationcall" : ℕ) : ℚ) / txs.length := rfl
  refine ⟨heq, ?_, ?_⟩
  · rw [heq]
    positivity
  · rw [heq]
    have hlen : 0 < (txs.length : ℚ) := by
      have hl : 0 < txs.length := List.length_pos.mpr h
      exact_mod_cast hl
    rw [div_le_one hlen]
    exact_mod_cast List.countP_le_length _

/-- C3 witness: the amended statement instantiated at the concrete
two-event wallet with one liquidation. -/
theorem liquidation_count_is_event_fraction_witness :
    liqDepTxs ≠ [] ∧
    ((calculate_wallet_features liqDepTxs).liquidation_count
        = ((liqDepTxs.countP fun t => t.action == "liquidationcall" : ℕ) : ℚ)
            / liqDepTxs.length ∧
      0 ≤ (calculate_wallet_features liqDepTxs).liquidation_count ∧
      (calculate_wallet_features liqDepTxs).liquidation_count ≤ 1) :=
  ⟨by decide, liquidation_count_is_event_fraction liqDepTxs (by decide)⟩

/-- C5 counterexample: a model prediction of 543.7 is published as 543
(clip then truncation toward zero), while the claimed
`clip(round(·), 0, 1000)` gives 544. -/
theorem published_score_truncates_cex :
    credit_scores id (fun _ => [5437 / 10]) [calculate_wallet_features soloLiqTxs]
        = [543] ∧
    spec_published (5437 / 10) = 544 := by
  constructor
  · have hclip : np_clip 0 1000 ((5437 : ℚ) / 10) = 5437 / 10 := by
      norm_num [np_clip]
    have hfl : ⌊(5437 : ℚ) / 10⌋ = 543 := by
      rw [Int.floor_eq_iff]
      norm_num
    have htr : truncToZero ((5437 : ℚ) / 10) = 543 := by
      rw [truncToZero, if_pos (by norm_num : (0 : ℚ) ≤ 5437 / 10), hfl]
    simp [credit_scores, generate_scores, hclip, htr]
  · have hrd : ⌊(5437 : ℚ) / 10 + 1 / 2⌋ = 544 := by
      rw [Int.floor_eq_iff]
      norm_num
    rw [spec_published, round_eq, hrd]
    norm_num [min_def, max_def]

/-- C5 (amended): for every scaler, predictor, batch and in-range index,
the published score is `⌊clip(p, 0, 1000)⌋` — the clip applied to the
real-valued prediction `p`, then truncation toward zero (equal to floor
since the clipped value is non-negative); rounding to nearest is NOT
applied. -/
theorem published_score_is_floor_of_clip (scale : List (List ℚ) → List (List ℚ))
    (predict : List (List ℚ) → List ℚ) (rows : List WalletFeatures) (i : ℕ)
    (h : i < (predict (scale (scalerInput rows))).length) :
    (credit_scores scale predict rows).getD i 0
      = ⌊np_clip 0 1000 ((predict (scale (scalerInput rows))).getD i 0)⌋ := by
  unfold credit_scores generate_scores
  rw [List.getD_eq_getElem?_getD, List.getElem?_map, List.getElem?_map,
    List.getElem?_eq_getElem h, List.getD_eq_getElem?_getD,
    List.getElem?_eq_getElem h]
  rw [Option.map_map]
  simp only [Option.map_some', Option.getD_some, Function.comp_apply]
  rw [truncToZero, if_pos (np_clip_mem 0 1000 _ (by norm_num)).1]

/-- C5 witness: the amended statement at the concrete singleton batch and
prediction 543.7. -/
theorem published_score_is_floor_of_clip_witness :
    0 < (((fun _ => [5437 / 10]) : List (List ℚ) → List ℚ)
        (id (scalerInput [calculate_wallet_features soloLiqTxs]))).length ∧
    (credit_scores id (fun _ => [5437 / 10])
        [calculate_wallet_features soloLiqTxs]).getD 0 0
      = ⌊np_clip 0 1000 ((((fun _ => [5437 / 10]) : List (List ℚ) → List ℚ)
          (id (scalerInput [calculate_wallet_features soloLiqTxs]))).getD 0 0)⌋ :=
  ⟨by simp, published_score_is_floor_of_clip id (fun _ => [5437 / 10])
    [calculate_wallet_features soloLiqTxs] 0 (by simp)⟩

/-- C7: the matrix handed to the scaler is exactly the raw feature matrix
with `sanitize` applied entrywise, and `sanitize` maps `+inf`, `-inf` and
NaN to 0 while keeping every finite value unchanged — so no non-finite
value reaches the scaler or the regressor. -/
theorem scaler_input_sanitised (rows : List WalletFeatures) (i j : ℕ) :
    ((scalerInput rows)[i]?.bind fun r => r[j]?)
      = (((rows.map featureRow)[i]?.bind fun r => r[j]?).map sanitize) ∧
    sanitize EVal.posInf = 0 ∧ sanitize EVal.negInf = 0 ∧
    sanitize EVal.nan = 0 ∧ ∀ q : ℚ, sanitize (EVal.finite q) = q := by
  refine ⟨?_, rfl, rfl, rfl, fun q => rfl⟩
  rw [scalerInput, List.getElem?_map, List.getElem?_map]
  cases hrows : rows[i]? with
  | none => rfl
  | some f => simp [List.getElem?_map]

/-- C9: feature extraction is free of cross-wallet leakage: if two event
tables contain the same rows for wallet `w` (in the same order), then
`w`'s feature vector and baseline score agree across the two runs —
changing, adding or removing other wallets' events cannot affect them. -/
theorem feature_extraction_noninterference (events1 events2 : List Event)
    (w : String) (h : walletGroup w events1 = walletGroup w events2) :
    walletFeaturesOf w events1 = walletFeaturesOf w events2 ∧
    base_scoreOf w events1 = base_scoreOf w events2 := by
  have hf : walletFeaturesOf w events1 = walletFeaturesOf w events2 := by
    unfold walletFeaturesOf
    rw [h]
  refine ⟨hf, ?_⟩
  unfold base_scoreOf
  rw [hf]

/-- C9 witness: wallet `wT` keeps its row while other wallets' events are
changed, added and removed; its features and base score are unchanged. -/
theorem feature_extraction_noninterference_witness :
    walletGroup "wT" nihEvents1 = walletGroup "wT" nihEvents2 ∧
    (walletFeaturesOf "wT" nihEvents1 = walletFeaturesOf "wT" nihEvents2 ∧
      base_scoreOf "wT" nihEvents1 = base_scoreOf "wT" nihEvents2) :=
  ⟨by decide, feature_extraction_noninterference nihEvents1 nihEvents2 "wT" (by decide)⟩

/-- C10: the high-frequency penalty of -150 is included in the base score
whenever the gap standard deviation is below 60, regardless of gap
magnitude: it is included for every single-event wallet (whose
`tx_frequency_std` is 0 by the fallback branch) and for every wallet with
perfectly evenly spaced events (gap std 0, even with day-long gaps). -/
theorem high_frequency_penalty_at_zero_gap_std :
    (∀ e : Event,
        high_frequency_penalty * hfIndicator (calculate_wallet_features [e]) = -150) ∧
    ∀ (txs : List Event) (g : ℚ), (∀ d ∈ timeDiffs txs, d = g) →
        high_frequency_penalty * hfIndicator (calculate_wallet_features txs) = -150 := by
  have hind : ∀ txs : List Event,
      (calculate_wallet_features txs).tx_frequency_std_sq < 3600 →
      high_frequency_penalty * hfIndicator (calculate_wallet_features txs) = -150 := by
    intro txs hlt
    rw [hfIndicator, if_pos hlt]
    norm_num [high_frequency_penalty]
  constructor
  · intro e
    apply hind
    have h0 : (calculate_wallet_features [e]).tx_frequency_std_sq = 0 := rfl
    rw [h0]
    norm_num
  · intro txs g hg
    apply hind
    have hstd : (calculate_wallet_features txs).tx_frequency_std_sq
        = if 1 < (timeDiffs txs).length then popVar (timeDiffs txs) else 0 := rfl
    rw [hstd]
    split_ifs with hlen
    · have hne : timeDiffs txs ≠ [] := by
        intro hnil
        rw [hnil] at hlen
        simp at hlen
      rw [popVar_eq_zero_of_const (timeDiffs txs) g hne hg]
      norm_num
    · norm_num

/-- C10 witness: three repayments exactly one day apart (gaps of 86400 s,
std 0) still receive the -150 high-frequency term. -/
theorem high_frequency_penalty_at_zero_gap_std_witness :
    (∀ d ∈ timeDiffs evenSpacedTxs, d = 86400) ∧
    high_frequency_penalty * hfIndicator (calculate_wallet_features evenSpacedTxs)
      = -150 := by
  have hg : ∀ d ∈ timeDiffs evenSpacedTxs, d = 86400 := by
    norm_num [timeDiffs, evenSpacedTxs, List.insertionSort, List.orderedInsert, adjDiffs]
  exact ⟨hg, high_frequency_penalty_at_zero_gap_std.2 evenSpacedTxs 86400 hg⟩

end CreditScoring
